import Mathlib

/-!
Shallow embedding of `contributing/samples/vap_mcp_agent/agent.py`.

The script reads five environment variables plus the home directory,
resolves an API key (primary `VAP_API_KEY`, legacy alias `VAPE_API_KEY`),
resolves a proxy script path, and constructs an `LlmAgent` whose single
tool is an MCP toolset connected over stdio with a 300 second timeout.
The process environment is modelled as an explicit record of the
variables the script consults, each `Option String` (`none` = unset).
-/

/-- The slice of the process environment the script reads, plus the
user's home directory used by `os.path.expanduser`. -/
structure Env where
  vap_api_key : Option String
  vape_api_key : Option String
  vap_mcp_proxy_path : Option String
  vap_api_url : Option String
  vap_api_base_url : Option String
  home : String
deriving DecidableEq, Repr

/-- `os.getenv(name, default)`: the variable's value when set (even when
set to the empty string), otherwise the default. -/
def getenv : Option String → String → String
  | some v, _ => v
  | none, d => d

/-- `os.path.expanduser`: replaces a leading `~/` with the home
directory; other paths are returned unchanged. -/
def expanduser (home : String) (path : String) : String :=
  match path.data with
  | '~' :: '/' :: rest => home ++ ⟨'/' :: rest⟩
  | _ => path

/-- `VAP_API_KEY = os.getenv("VAP_API_KEY", os.getenv("VAPE_API_KEY", ""))`. -/
def VAP_API_KEY (e : Env) : String :=
  getenv e.vap_api_key (getenv e.vape_api_key "")

/-- `VAP_MCP_PROXY_PATH = os.getenv("VAP_MCP_PROXY_PATH", os.path.expanduser("~/vap_mcp_proxy.py"))`. -/
def VAP_MCP_PROXY_PATH (e : Env) : String :=
  getenv e.vap_mcp_proxy_path (expanduser e.home "~/vap_mcp_proxy.py")

/-- `mcp.StdioServerParameters`: command, argument list, and the
environment mapping handed to the child process (an ordered dict,
modelled as an association list). -/
structure StdioServerParameters where
  command : String
  args : List String
  env : List (String × String)
deriving DecidableEq, Repr

/-- `google.adk.tools.mcp_tool.StdioConnectionParams`. -/
structure StdioConnectionParams where
  server_params : StdioServerParameters
  timeout : Nat
deriving DecidableEq, Repr

/-- `MCPToolset(connection_params=...)`. -/
structure MCPToolset where
  connection_params : StdioConnectionParams
deriving DecidableEq, Repr

/-- `LlmAgent(model=..., name=..., instruction=..., tools=[...])`. -/
structure LlmAgent where
  model : String
  name : String
  instruction : String
  tools : List MCPToolset
deriving DecidableEq, Repr

/-- The fixed instruction payload of the agent (the f-string interpolates
nothing, so it is a constant). -/
def instruction_text : String :=
"You are VAP Media Assistant - an AI media generation specialist powered by VAP\x27s MCP server.

🎯 CAPABILITIES:
• Generate AI images (Flux) - 9 aspect ratios, high quality
• Generate AI videos (Veo 3.1) - 4-8 seconds, 720p/1080p
• Generate AI music (Suno V5) - MP3/WAV, 30-480 seconds
• Check task status and get results
• Estimate costs before generation
• Check account balance

💰 PRICING:
• Images: $0.18 fixed per image
• Videos: $1.96 fixed per video (Veo 3.1)
• Music: $0.68 fixed per track

📝 USAGE GUIDELINES:

For Image Generation:
- Ask for prompt if not provided
- Default aspect ratio: 1:1 (square)
- Available ratios: 1:1, 16:9, 9:16, 4:3, 3:4, 21:9, 9:21, 3:2, 2:3
- Style: Describe in detail for best results

For Video Generation:
- Duration: 4, 6, or 8 seconds (default: 8)
- Aspect ratio: 16:9 (landscape) or 9:16 (portrait)
- Resolution: 720p or 1080p (default: 720p)
- Audio: Can include AI-generated audio

For Music Generation:
- Duration: 30-480 seconds (default: 120)
- Format: MP3 or WAV
- Describe genre, mood, instruments, tempo

For Cost Estimation:
- Always offer to estimate costs before expensive operations
- Use estimate_video_cost for videos
- Image and music costs are fixed

For Task Status:
- Tasks take time to complete (30s-5min depending on type)
- Provide task_id to user after creation
- Offer to check status periodically
- When complete, provide the download URL

⚠️ IMPORTANT:
- If VAP_API_KEY is not set, warn the user and explain free tier limits
- Free tier: 3 images/day without API key
- Always confirm expensive operations (videos $1.96, music $0.68)
- Be clear about generation times (images: ~30s, videos: ~2min, music: ~1min)
"

/-- The `StdioServerParameters(...)` construction: the env dict gets
three entries when the resolved API key is truthy (a non-empty string in
Python), and only the two URL entries otherwise. -/
def buildServerParameters (e : Env) : StdioServerParameters :=
  { command := "python"
  , args := [VAP_MCP_PROXY_PATH e]
  , env :=
      if VAP_API_KEY e ≠ "" then
        [("VAP_API_KEY", VAP_API_KEY e),
         ("VAP_API_URL", getenv e.vap_api_url "https://api.vapagent.com/mcp"),
         ("VAP_API_BASE_URL", getenv e.vap_api_base_url "https://api.vapagent.com")]
      else
        [("VAP_API_URL", getenv e.vap_api_url "https://api.vapagent.com/mcp"),
         ("VAP_API_BASE_URL", getenv e.vap_api_base_url "https://api.vapagent.com")] }

/-- The `StdioConnectionParams(server_params=..., timeout=300)`
construction (the spec's `buildConnectionDescriptor`). -/
def buildConnectionDescriptor (e : Env) : StdioConnectionParams :=
  { server_params := buildServerParameters e
  , timeout := 300 }

/-- `root_agent = LlmAgent(...)` (the spec's `buildAgentConfig`). -/
def root_agent (e : Env) : LlmAgent :=
  { model := "gemini-2.5-flash"
  , name := "vap_media_assistant"
  , instruction := instruction_text
  , tools := [⟨⟨buildServerParameters e, 300⟩⟩] }

/-- Lookup of a key in the environment association list (key presence,
first match wins, as in a Python dict built from distinct keys). -/
def lookupEnv : List (String × String) → String → Option String
  | [], _ => none
  | (k, v) :: rest, key => if k = key then some v else lookupEnv rest key

/-- Claim C1: in every environment where neither `VAP_API_KEY` nor the
legacy alias `VAPE_API_KEY` is set, the resolved credential is the empty
string, and the child-process environment mapping is exactly the two URL
entries: the API-key field is absent (checked by key presence), and the
mapping has length two. -/
theorem c1_no_key_env_has_two_url_entries (e : Env)
    (h1 : e.vap_api_key = none) (h2 : e.vape_api_key = none) :
    VAP_API_KEY e = "" ∧
    (buildConnectionDescriptor e).server_params.env =
      [("VAP_API_URL", getenv e.vap_api_url "https://api.vapagent.com/mcp"),
       ("VAP_API_BASE_URL", getenv e.vap_api_base_url "https://api.vapagent.com")] ∧
    lookupEnv (buildConnectionDescriptor e).server_params.env "VAP_API_KEY" = none ∧
    (buildConnectionDescriptor e).server_params.env.length = 2 := by
  refine ⟨by simp [VAP_API_KEY, getenv, h1, h2], ?_, ?_, ?_⟩ <;>
    simp [buildConnectionDescriptor, buildServerParameters, VAP_API_KEY, getenv,
      h1, h2, lookupEnv]

/-- Witness for C1 at a concrete environment with no key variables set. -/
theorem c1_no_key_env_has_two_url_entries_witness :
    VAP_API_KEY ⟨none, none, none, none, none, "/home/user"⟩ = "" ∧
    (buildConnectionDescriptor ⟨none, none, none, none, none, "/home/user"⟩).server_params.env =
      [("VAP_API_URL", "https://api.vapagent.com/mcp"),
       ("VAP_API_BASE_URL", "https://api.vapagent.com")] ∧
    lookupEnv (buildConnectionDescriptor
      ⟨none, none, none, none, none, "/home/user"⟩).server_params.env "VAP_API_KEY" = none ∧
    (buildConnectionDescriptor
      ⟨none, none, none, none, none, "/home/user"⟩).server_params.env.length = 2 :=
  c1_no_key_env_has_two_url_entries ⟨none, none, none, none, none, "/home/user"⟩ rfl rfl

/-- Claim C2: whenever the primary variable `VAP_API_KEY` is set, the
resolved credential is its value, regardless of the legacy alias. -/
theorem c2_primary_key_preferred (e : Env) (v : String)
    (h : e.vap_api_key = some v) : VAP_API_KEY e = v := by
  simp [VAP_API_KEY, getenv, h]

/-- Witness for C2: primary set while the alias holds a different value. -/
theorem c2_primary_key_preferred_witness :
    VAP_API_KEY ⟨some "primary", some "legacy", none, none, none, "/home/user"⟩ = "primary" :=
  c2_primary_key_preferred ⟨some "primary", some "legacy", none, none, none, "/home/user"⟩
    "primary" rfl

/-- Claim C3: when the primary variable is unset and only the legacy
alias `VAPE_API_KEY` is set, the resolved credential is the alias value. -/
theorem c3_alias_fallback (e : Env) (v : String)
    (h1 : e.vap_api_key = none) (h2 : e.vape_api_key = some v) :
    VAP_API_KEY e = v := by
  simp [VAP_API_KEY, getenv, h1, h2]

/-- Witness for C3 at a concrete environment with only the alias set. -/
theorem c3_alias_fallback_witness :
    VAP_API_KEY ⟨none, some "legacy", none, none, none, "/home/user"⟩ = "legacy" :=
  c3_alias_fallback ⟨none, some "legacy", none, none, none, "/home/user"⟩ "legacy" rfl rfl

/-- Claim C4: with `VAP_API_KEY` set to `"abc123"` and no URL overrides,
the descriptor environment mapping is exactly the three-entry mapping
with both hardcoded default URLs. -/
theorem c4_key_abc123_three_entries (e : Env)
    (h1 : e.vap_api_key = some "abc123")
    (h2 : e.vap_api_url = none) (h3 : e.vap_api_base_url = none) :
    (buildConnectionDescriptor e).server_params.env =
      [("VAP_API_KEY", "abc123"),
       ("VAP_API_URL", "https://api.vapagent.com/mcp"),
       ("VAP_API_BASE_URL", "https://api.vapagent.com")] := by
  simp [buildConnectionDescriptor, buildServerParameters, VAP_API_KEY, getenv, h1, h2, h3]

/-- Witness for C4 at a concrete environment. -/
theorem c4_key_abc123_three_entries_witness :
    (buildConnectionDescriptor
      ⟨some "abc123", none, none, none, none, "/home/user"⟩).server_params.env =
      [("VAP_API_KEY", "abc123"),
       ("VAP_API_URL", "https://api.vapagent.com/mcp"),
       ("VAP_API_BASE_URL", "https://api.vapagent.com")] :=
  c4_key_abc123_three_entries ⟨some "abc123", none, none, none, none, "/home/user"⟩
    rfl rfl rfl

/-- Claim C5: for every environment, the descriptor declares
`timeout = 300` (strictly positive) and a non-empty command string. -/
theorem c5_timeout_300_command_nonempty (e : Env) :
    (buildConnectionDescriptor e).timeout = 300 ∧
    0 < (buildConnectionDescriptor e).timeout ∧
    (buildConnectionDescriptor e).server_params.command ≠ "" := by
  refine ⟨rfl, ?_, ?_⟩
  · show (0 : Nat) < 300
    decide
  · show ("python" : String) ≠ ""
    decide

/-- Claim C6: when the proxy-path override is set to `"/tmp/proxy.py"`,
the argument list is exactly `["/tmp/proxy.py"]`. -/
theorem c6_proxy_override_args (e : Env)
    (h : e.vap_mcp_proxy_path = some "/tmp/proxy.py") :
    (buildConnectionDescriptor e).server_params.args = ["/tmp/proxy.py"] := by
  simp [buildConnectionDescriptor, buildServerParameters, VAP_MCP_PROXY_PATH, getenv, h]

/-- Witness for C6 at a concrete environment with the override set. -/
theorem c6_proxy_override_args_witness :
    (buildConnectionDescriptor
      ⟨none, none, some "/tmp/proxy.py", none, none, "/home/user"⟩).server_params.args =
      ["/tmp/proxy.py"] :=
  c6_proxy_override_args ⟨none, none, some "/tmp/proxy.py", none, none, "/home/user"⟩ rfl

/-- Claim C7: with no proxy-path override, the resolved path is the
default filename `vap_mcp_proxy.py` under the home directory, and it is
the sole element of the argument list. -/
theorem c7_proxy_default_under_home (e : Env) (h : e.vap_mcp_proxy_path = none) :
    VAP_MCP_PROXY_PATH e = e.home ++ "/vap_mcp_proxy.py" ∧
    (buildConnectionDescriptor e).server_params.args = [e.home ++ "/vap_mcp_proxy.py"] := by
  constructor <;>
    simp [buildConnectionDescriptor, buildServerParameters, VAP_MCP_PROXY_PATH, getenv,
      h, expanduser]

/-- Witness for C7 at a concrete environment with home `/home/user`. -/
theorem c7_proxy_default_under_home_witness :
    VAP_MCP_PROXY_PATH ⟨none, none, none, none, none, "/home/user"⟩ =
      "/home/user" ++ "/vap_mcp_proxy.py" ∧
    (buildConnectionDescriptor
      ⟨none, none, none, none, none, "/home/user"⟩).server_params.args =
      ["/home/user" ++ "/vap_mcp_proxy.py"] :=
  c7_proxy_default_under_home ⟨none, none, none, none, none, "/home/user"⟩ rfl

/-- Claim C8: the agent build is deterministic and idempotent — two
builds under field-wise identical environment states produce structurally
equal `LlmAgent` values (same model, name, instruction and tool
connection descriptor). -/
theorem c8_build_deterministic (e₁ e₂ : Env)
    (h1 : e₁.vap_api_key = e₂.vap_api_key)
    (h2 : e₁.vape_api_key = e₂.vape_api_key)
    (h3 : e₁.vap_mcp_proxy_path = e₂.vap_mcp_proxy_path)
    (h4 : e₁.vap_api_url = e₂.vap_api_url)
    (h5 : e₁.vap_api_base_url = e₂.vap_api_base_url)
    (h6 : e₁.home = e₂.home) :
    root_agent e₁ = root_agent e₂ := by
  have he : e₁ = e₂ := by cases e₁; cases e₂; simp_all
  rw [he]

/-- Witness for C8: two builds under the same concrete environment. -/
theorem c8_build_deterministic_witness :
    root_agent ⟨some "k", none, none, none, none, "/home/user"⟩ =
      root_agent ⟨some "k", none, none, none, none, "/home/user"⟩ :=
  c8_build_deterministic ⟨some "k", none, none, none, none, "/home/user"⟩
    ⟨some "k", none, none, none, none, "/home/user"⟩ rfl rfl rfl rfl rfl rfl

/-- Claim C9: the API-key field is present in the descriptor environment
mapping exactly when the resolved credential is non-empty; in particular,
when `VAP_API_KEY` is set to the empty string (even with a non-empty
legacy alias), the credential resolves to the empty string and the key is
omitted from the mapping. -/
theorem c9_key_presence_iff_nonempty (e : Env) :
    ((lookupEnv (buildConnectionDescriptor e).server_params.env "VAP_API_KEY").isSome = true
        ↔ VAP_API_KEY e ≠ "") ∧
    (e.vap_api_key = some "" →
      VAP_API_KEY e = "" ∧
      lookupEnv (buildConnectionDescriptor e).server_params.env "VAP_API_KEY" = none) := by
  constructor
  · by_cases hk : VAP_API_KEY e = "" <;>
      simp [buildConnectionDescriptor, buildServerParameters, hk, lookupEnv]
  · intro h
    have hk : VAP_API_KEY e = "" := by simp [VAP_API_KEY, getenv, h]
    exact ⟨hk, by simp [buildConnectionDescriptor, buildServerParameters, hk, lookupEnv]⟩

/-- Witness for C9: primary set to the empty string while the alias
holds a non-empty secret — the key is still omitted. -/
theorem c9_key_presence_iff_nonempty_witness :
    VAP_API_KEY ⟨some "", some "secret", none, none, none, "/home/user"⟩ = "" ∧
    lookupEnv (buildConnectionDescriptor
      ⟨some "", some "secret", none, none, none, "/home/user"⟩).server_params.env
      "VAP_API_KEY" = none :=
  (c9_key_presence_iff_nonempty ⟨some "", some "secret", none, none, none, "/home/user"⟩).2 rfl

/-- Claim C10: every descriptor environment mapping contains both URL
entries, each resolved from its override variable with its hardcoded
default; two environments agreeing on the URL variables (while the key
variables may differ arbitrarily) yield identical URL entries. -/
theorem c10_url_entries_stable (e₁ e₂ : Env)
    (hu : e₁.vap_api_url = e₂.vap_api_url)
    (hb : e₁.vap_api_base_url = e₂.vap_api_base_url) :
    lookupEnv (buildConnectionDescriptor e₁).server_params.env "VAP_API_URL"
      = some (getenv e₁.vap_api_url "https://api.vapagent.com/mcp") ∧
    lookupEnv (buildConnectionDescriptor e₁).server_params.env "VAP_API_BASE_URL"
      = some (getenv e₁.vap_api_base_url "https://api.vapagent.com") ∧
    lookupEnv (buildConnectionDescriptor e₂).server_params.env "VAP_API_URL"
      = lookupEnv (buildConnectionDescriptor e₁).server_params.env "VAP_API_URL" ∧
    lookupEnv (buildConnectionDescriptor e₂).server_params.env "VAP_API_BASE_URL"
      = lookupEnv (buildConnectionDescriptor e₁).server_params.env "VAP_API_BASE_URL" := by
  have hurl : ∀ e : Env,
      lookupEnv (buildConnectionDescriptor e).server_params.env "VAP_API_URL"
        = some (getenv e.vap_api_url "https://api.vapagent.com/mcp") := fun e => by
    by_cases hk : VAP_API_KEY e = "" <;>
      simp [buildConnectionDescriptor, buildServerParameters, hk, lookupEnv]
  have hbase : ∀ e : Env,
      lookupEnv (buildConnectionDescriptor e).server_params.env "VAP_API_BASE_URL"
        = some (getenv e.vap_api_base_url "https://api.vapagent.com") := fun e => by
    by_cases hk : VAP_API_KEY e = "" <;>
      simp [buildConnectionDescriptor, buildServerParameters, hk, lookupEnv]
  exact ⟨hurl e₁, hbase e₁, by rw [hurl e₁, hurl e₂, hu], by rw [hbase e₁, hbase e₂, hb]⟩

/-- Witness for C10: two environments differing only in the key
variables have the same (default) URL entries. -/
theorem c10_url_entries_stable_witness :
    lookupEnv (buildConnectionDescriptor
      ⟨some "k", none, none, none, none, "/home/user"⟩).server_params.env "VAP_API_URL"
      = some "https://api.vapagent.com/mcp" ∧
    lookupEnv (buildConnectionDescriptor
      ⟨some "k", none, none, none, none, "/home/user"⟩).server_params.env "VAP_API_BASE_URL"
      = some "https://api.vapagent.com" ∧
    lookupEnv (buildConnectionDescriptor
      ⟨none, none, none, none, none, "/home/user"⟩).server_params.env "VAP_API_URL"
      = lookupEnv (buildConnectionDescriptor
      ⟨some "k", none, none, none, none, "/home/user"⟩).server_params.env "VAP_API_URL" ∧
    lookupEnv (buildConnectionDescriptor
      ⟨none, none, none, none, none, "/home/user"⟩).server_params.env "VAP_API_BASE_URL"
      = lookupEnv (buildConnectionDescriptor
      ⟨some "k", none, none, none, none, "/home/user"⟩).server_params.env "VAP_API_BASE_URL" :=
  c10_url_entries_stable ⟨some "k", none, none, none, none, "/home/user"⟩
    ⟨none, none, none, none, none, "/home/user"⟩ rfl rfl
